import Mathlib

/-!
Verification development for the mcp-fabric control plane and gateway.

The Go sources are shallowly embedded: pure data transformations become Lean
functions, stateful methods become explicit state-passing functions, and
external collaborators (the JSON decoder `encoding/json`, the regex compiler
`regexp.Compile`, the Kubernetes object store) are parameters of the embedded
functions.  Machine integers (`int32`, `int64`) are modelled as `Int`; every
guarded counter in the modelled code stays far from the 2^31 boundary, so no
wrap-around arithmetic is needed.
-/

namespace MCPFabric

/-! ## Gateway route table (gateway/internal/routes/table.go)

Types mirror `RouteConfig`, `CompiledRouteRule`, `CompiledRouteMatch`,
`CompiledRouteBackend`, `RouteDefaultConfig`, `Table`, `compiledRule`,
`MatchRequest` and `MatchResult`.  Go `map[string]string` values are modelled
as association lists; indexing a missing key yields the zero value `""`,
as in Go. -/

/-- Go map indexing on a `map[string]string` modelled as an association list:
the value of the first matching key, or the zero value `""` when absent. -/
def goMapGet (m : List (String × String)) (k : String) : String :=
  match m.find? (fun kv => kv.1 == k) with
  | some kv => kv.2
  | none => ""

/-- Match criteria of a compiled route rule (`CompiledRouteMatch`). -/
structure CompiledRouteMatch where
  agent : String
  intentRegex : String
  tenantId : String
  headers : List (String × String)
deriving DecidableEq

/-- A resolved backend of a compiled route rule (`CompiledRouteBackend`). -/
structure CompiledRouteBackend where
  agentName : String
  Namespace : String
  endpoint : String
  weight : Int
  ready : Bool
deriving DecidableEq

/-- A pre-compiled route rule (`CompiledRouteRule`). -/
structure CompiledRouteRule where
  name : String
  priority : Int
  Match : CompiledRouteMatch
  backends : List CompiledRouteBackend
deriving DecidableEq

/-- Default routing configuration (`RouteDefaultConfig`). -/
structure RouteDefaultConfig where
  backend : Option CompiledRouteBackend
  maxConcurrent : Int
  maxQueueSize : Int
  queueTimeoutMs : Int
  requestTimeoutMs : Int
  rejectUnmatched : Bool
deriving DecidableEq

/-- The compiled routing configuration (`RouteConfig`). -/
structure RouteConfig where
  rules : List CompiledRouteRule
  defaults : Option RouteDefaultConfig
deriving DecidableEq

/-- A rule together with its compiled regex (`compiledRule`).  The compiled
`*regexp.Regexp` is modelled as its matching function `String → Bool`
(`regexp` is the Go standard library, external to this repository);
`none` corresponds to a nil `intentRegex` pointer. -/
structure compiledRule where
  rule : CompiledRouteRule
  intentRegex : Option (String → Bool)

/-- The in-memory route table (`Table`).  The `sync.RWMutex` guards the two
fields; `Match` holds a read lock and `LoadFromJSON` a write lock, so each
observes and produces a consistent pair, which is what this record is. -/
structure Table where
  config : Option RouteConfig
  compiled : List compiledRule

/-- Request parameters for matching (`MatchRequest`). -/
structure MatchRequest where
  Agent : String
  Intent : String
  TenantID : String
  Headers : List (String × String)
deriving DecidableEq

/-- A match outcome (`MatchResult`). -/
structure MatchResult where
  RuleName : String
  Backends : List CompiledRouteBackend
deriving DecidableEq

/-- Filters a backend slice to the ready ones (`filterReadyBackends`). -/
def filterReadyBackends (backends : List CompiledRouteBackend) : List CompiledRouteBackend :=
  backends.filter (fun b => b.ready)

/-- Whether a compiled rule matches a request (`Table.ruleMatches`):
the sequence of early-return checks on agent, intent regex, tenant id and
headers. -/
def ruleMatches (cr : compiledRule) (req : MatchRequest) : Bool :=
  if cr.rule.Match.agent != "" && cr.rule.Match.agent != req.Agent then false
  else if (match cr.intentRegex with
           | some re => !(re req.Intent)
           | none => false) then false
  else if cr.rule.Match.tenantId != "" && cr.rule.Match.tenantId != req.TenantID then false
  else cr.rule.Match.headers.all (fun kv => goMapGet req.Headers kv.1 == kv.2)

/-- The match procedure (`Table.Match`): explicit-agent scan, then the general
scan in stored order, then the ready default backend under `_default`,
else no match.  The Go `for` loops with early `return` are rendered as
`List.find?` over the same predicates. -/
def Table.matchReq (t : Table) (req : MatchRequest) : Option MatchResult :=
  match t.config with
  | none => none
  | some config =>
    match (if req.Agent != "" then
             t.compiled.find? (fun cr =>
               cr.rule.Match.agent == req.Agent
                 && !(filterReadyBackends cr.rule.backends).isEmpty)
           else none) with
    | some cr => some ⟨cr.rule.name, filterReadyBackends cr.rule.backends⟩
    | none =>
      match t.compiled.find? (fun cr =>
          ruleMatches cr req && !(filterReadyBackends cr.rule.backends).isEmpty) with
      | some cr => some ⟨cr.rule.name, filterReadyBackends cr.rule.backends⟩
      | none =>
        match config.defaults with
        | some d =>
          match d.backend with
          | some b => if b.ready then some ⟨"_default", [b]⟩ else none
          | none => none
        | none => none

/-- Returns the default configuration (`Table.GetDefaults`). -/
def Table.getDefaults (t : Table) : Option RouteDefaultConfig :=
  match t.config with
  | none => none
  | some c => c.defaults

/-- Compiles the regexes of a rule list in order
(the loop body of `Table.LoadFromJSON`): the first syntactically invalid
non-empty `intentRegex` aborts with an error carrying the offending pattern;
`compileRe` stands for `regexp.Compile`, returning `none` on a syntax error. -/
def compileRules (compileRe : String → Option (String → Bool)) :
    List CompiledRouteRule → Except String (List compiledRule)
  | [] => Except.ok []
  | r :: rest =>
    if r.Match.intentRegex != "" then
      match compileRe r.Match.intentRegex with
      | none => Except.error r.Match.intentRegex
      | some re =>
        match compileRules compileRe rest with
        | Except.error e => Except.error e
        | Except.ok tail => Except.ok (⟨r, some re⟩ :: tail)
    else
      match compileRules compileRe rest with
      | Except.error e => Except.error e
      | Except.ok tail => Except.ok (⟨r, none⟩ :: tail)

/-- Loads a configuration into the table (`Table.LoadFromJSON`).
`parsed` is the outcome of `json.Unmarshal` (`none` = malformed JSON, a
standard-library concern outside the repository).  Returns the table after
the call together with the returned error, mirroring that the Go method
mutates `t.config`/`t.compiled` only after every rule compiled. -/
def Table.loadFromJSON (t : Table) (parsed : Option RouteConfig)
    (compileRe : String → Option (String → Bool)) : Table × Option String :=
  match parsed with
  | none => (t, some "json unmarshal error")
  | some config =>
    match compileRules compileRe config.rules with
    | Except.error e => (t, some e)
    | Except.ok compiled => ({ config := some config, compiled := compiled }, none)

/-! ## Invoke routing outcome (gateway/internal/api/handlers.go)

The no-match arm of `Handler.handleInvoke` (lines 130-143): on a nil or
backend-less match result, reject with 400 when `defaults.rejectUnmatched`
is set, else with 404. -/

/-- Routing decision of `handleInvoke` before backend selection. -/
inductive InvokeRouting where
  | matched (result : MatchResult)
  | badRequest
  | notFound
deriving DecidableEq

/-- The rejection arm of `handleInvoke`: 400 iff defaults exist and
`rejectUnmatched` is set, else 404. -/
def noMatchOutcome (t : Table) : InvokeRouting :=
  match t.getDefaults with
  | some d => if d.rejectUnmatched then InvokeRouting.badRequest else InvokeRouting.notFound
  | none => InvokeRouting.notFound

/-- The routing portion of `Handler.handleInvoke`: match the table, treat a
nil or empty-backend result as no match. -/
def handleInvokeRouting (t : Table) (req : MatchRequest) : InvokeRouting :=
  match t.matchReq req with
  | some m => if m.Backends.isEmpty then noMatchOutcome t else InvokeRouting.matched m
  | none => noMatchOutcome t

/-! Spec-side rendering of the four-step match procedure, written from the
words of the claim (C5), to be compared with the embedding above. -/

/-- Spec wording: all non-empty criteria of the rule hold for the request. -/
def specRuleMatches (cr : compiledRule) (req : MatchRequest) : Bool :=
  (cr.rule.Match.agent == "" || cr.rule.Match.agent == req.Agent)
    && (match cr.intentRegex with
        | some re => re req.Intent
        | none => true)
    && (cr.rule.Match.tenantId == "" || cr.rule.Match.tenantId == req.TenantID)
    && cr.rule.Match.headers.all (fun kv => goMapGet req.Headers kv.1 == kv.2)

/-- Spec wording of the four-step match procedure of claim C5. -/
def matchProcedureSpec (t : Table) (req : MatchRequest) : InvokeRouting :=
  match (if req.Agent != "" then
           t.compiled.find? (fun cr =>
             cr.rule.Match.agent == req.Agent
               && !(filterReadyBackends cr.rule.backends).isEmpty)
         else none) with
  | some cr => InvokeRouting.matched ⟨cr.rule.name, filterReadyBackends cr.rule.backends⟩
  | none =>
    match t.compiled.find? (fun cr =>
        specRuleMatches cr req && !(filterReadyBackends cr.rule.backends).isEmpty) with
    | some cr => InvokeRouting.matched ⟨cr.rule.name, filterReadyBackends cr.rule.backends⟩
    | none =>
      match t.getDefaults with
      | some d =>
        match d.backend with
        | some b =>
          if b.ready then InvokeRouting.matched ⟨"_default", [b]⟩
          else if d.rejectUnmatched then InvokeRouting.badRequest else InvokeRouting.notFound
        | none => if d.rejectUnmatched then InvokeRouting.badRequest else InvokeRouting.notFound
      | none => InvokeRouting.notFound

/-- A table is well-formed when an absent config comes with an empty compiled
slice; every table the code constructs (the zero `Table` and the tables
produced by `LoadFromJSON`) satisfies this. -/
def Table.wf (t : Table) : Prop :=
  t.config = none → t.compiled = []

/-! ## Route custom resource and its reconciler
(operator/internal/controllers/route_controller.go)

The Route spec types live in `operator/api/v1alpha1`; their field shapes are
fixed by every access in `RouteReconciler` (`rule.Name`, `rule.Priority`
(a nullable int32), `rule.Match.{Agent,IntentRegex,TenantID,Headers}`,
`backend.AgentRef.{Name,Namespace}`, `backend.Weight` (nullable),
`spec.Defaults.{Backend,CircuitBreaker,RejectUnmatched}`) and by the CRD
reference document. -/

/-- Reference to an Agent (`AgentRef`). -/
structure AgentRef where
  name : String
  Namespace : String
deriving DecidableEq

/-- A backend entry of a Route rule (`weight` is a nullable int32 pointer). -/
structure RouteBackendSpec where
  agentRef : AgentRef
  weight : Option Int
deriving DecidableEq

/-- Match criteria of a Route rule. -/
structure RouteMatchSpec where
  agent : String
  intentRegex : String
  tenantId : String
  headers : List (String × String)
deriving DecidableEq

/-- A declared Route rule (`priority` is a nullable int32 pointer). -/
structure RouteRuleSpec where
  name : String
  priority : Option Int
  Match : RouteMatchSpec
  backends : List RouteBackendSpec
deriving DecidableEq

/-- Circuit-breaker defaults of a Route; durations are carried as their
millisecond values (the reconciler only reads `cb.QueueTimeout.Milliseconds()`
and `cb.RequestTimeout.Milliseconds()`). -/
structure CircuitBreakerSpec where
  maxConcurrent : Option Int
  maxQueueSize : Option Int
  queueTimeoutMs : Option Int
  requestTimeoutMs : Option Int
deriving DecidableEq

/-- Default routing of a Route (`spec.defaults`). -/
structure RouteDefaultsSpec where
  backend : Option RouteBackendSpec
  circuitBreaker : Option CircuitBreakerSpec
  rejectUnmatched : Option Bool
deriving DecidableEq

/-- The declared Route spec. -/
structure RouteSpecFields where
  rules : List RouteRuleSpec
  defaults : Option RouteDefaultsSpec
deriving DecidableEq

/-- A Route object (metadata plus spec). -/
structure Route where
  name : String
  Namespace : String
  spec : RouteSpecFields
deriving DecidableEq

/-- Resolved backend status (`BackendStatus`). -/
structure BackendStatus where
  agentRef : AgentRef
  ready : Bool
  endpoint : String
deriving DecidableEq

/-- The slice of an Agent's status that `RouteReconciler` reads. -/
structure AgentStatusSlice where
  ready : Bool
  endpoint : String
deriving DecidableEq

/-- The key used for deduplication and the backend lookup map: note that
`resolveBackends` builds the `seen` key from the raw (possibly empty)
namespace of the reference, before defaulting. -/
def agentRefKey (ref : AgentRef) : String :=
  ref.Namespace ++ "/" ++ ref.name

/-- Loop body of `RouteReconciler.resolveBackends` over the backend
references collected from the rules and the default backend, carrying the
`seen` set; `getAgent name ns` stands for `r.Get` on the Agent store
(`none` = not found). -/
def resolveLoop (getAgent : String → String → Option AgentStatusSlice)
    (routeNs : String) : List AgentRef → List String → List BackendStatus × Bool
  | [], _ => ([], true)
  | ref :: rest, seen =>
    let key := agentRefKey ref
    if key ∈ seen then resolveLoop getAgent routeNs rest seen
    else
      let ns := if ref.Namespace = "" then routeNs else ref.Namespace
      let entry : BackendStatus × Bool :=
        match getAgent ref.name ns with
        | none => (⟨⟨ref.name, ns⟩, false, ""⟩, false)
        | some a => (⟨⟨ref.name, ns⟩, a.ready, a.endpoint⟩, a.ready)
      let restOut := resolveLoop getAgent routeNs rest (key :: seen)
      (entry.1 :: restOut.1, entry.2 && restOut.2)

/-- The backend references `resolveBackends` walks, in order: every rule's
backends, then the default backend (subject to the same `seen` check). -/
def routeBackendRefs (route : Route) : List AgentRef :=
  (route.spec.rules.flatMap (fun r => r.backends.map (fun b => b.agentRef)))
    ++ (match route.spec.defaults with
        | some d =>
          match d.backend with
          | some b => [b.agentRef]
          | none => []
        | none => [])

/-- `RouteReconciler.resolveBackends`: resolved backend statuses plus the
all-ready flag. -/
def resolveBackends (getAgent : String → String → Option AgentStatusSlice)
    (route : Route) : List BackendStatus × Bool :=
  resolveLoop getAgent route.Namespace (routeBackendRefs route) []

/-- Lookup in the `backendMap` built at the top of `compileRouteConfig`:
a Go map keyed by `namespace + "/" + name`, so a duplicate key keeps the
last entry, and a missing key yields the zero `BackendStatus`. -/
def backendMapGet (backends : List BackendStatus) (key : String) : BackendStatus :=
  match backends.reverse.find? (fun b => agentRefKey b.agentRef == key) with
  | some b => b
  | none => ⟨⟨"", ""⟩, false, ""⟩

/-- One rule of the compiled config built by `compileRouteConfig` (before the
sort): priority defaults to 0, match criteria are copied verbatim —
`intentRegex` included, uncompiled — and each backend is resolved through
the backend map with weight defaulting to 100. -/
def buildCompiledRule (route : Route) (backends : List BackendStatus)
    (rule : RouteRuleSpec) : CompiledRouteRule :=
  { name := rule.name
    priority := match rule.priority with
                | some p => p
                | none => 0
    Match := { agent := rule.Match.agent
               intentRegex := rule.Match.intentRegex
               tenantId := rule.Match.tenantId
               headers := rule.Match.headers }
    backends := rule.backends.map (fun b =>
      let ns := if b.agentRef.Namespace = "" then route.Namespace else b.agentRef.Namespace
      let status := backendMapGet backends (ns ++ "/" ++ b.agentRef.name)
      { agentName := b.agentRef.name
        Namespace := ns
        endpoint := status.endpoint
        weight := match b.weight with
                  | some w => w
                  | none => 100
        ready := status.ready }) }

/-- The rule list `compileRouteConfig` assembles before sorting. -/
def buildCompiledRules (route : Route) (backends : List BackendStatus) :
    List CompiledRouteRule :=
  route.spec.rules.map (buildCompiledRule route backends)

/-- The defaults block `compileRouteConfig` emits: hard-coded baseline
(100, 50, 30000 ms, 300000 ms, reject off) overridden field-by-field from
`spec.defaults`, plus the resolved default backend. -/
def buildDefaults (route : Route) (backends : List BackendStatus) :
    Option RouteDefaultConfig :=
  match route.spec.defaults with
  | none => none
  | some d =>
    let base : RouteDefaultConfig :=
      { backend := none, maxConcurrent := 100, maxQueueSize := 50,
        queueTimeoutMs := 30000, requestTimeoutMs := 300000,
        rejectUnmatched := false }
    let withCB :=
      match d.circuitBreaker with
      | none => base
      | some cb =>
        { base with
          maxConcurrent := match cb.maxConcurrent with
                           | some v => v
                           | none => base.maxConcurrent
          maxQueueSize := match cb.maxQueueSize with
                          | some v => v
                          | none => base.maxQueueSize
          queueTimeoutMs := match cb.queueTimeoutMs with
                            | some v => v
                            | none => base.queueTimeoutMs
          requestTimeoutMs := match cb.requestTimeoutMs with
                              | some v => v
                              | none => base.requestTimeoutMs }
    let withReject :=
      match d.rejectUnmatched with
      | some v => { withCB with rejectUnmatched := v }
      | none => withCB
    match d.backend with
    | none => some withReject
    | some b =>
      let ns := if b.agentRef.Namespace = "" then route.Namespace else b.agentRef.Namespace
      let status := backendMapGet backends (ns ++ "/" ++ b.agentRef.name)
      some { withReject with
             backend := some
               { agentName := b.agentRef.name
                 Namespace := ns
                 endpoint := status.endpoint
                 weight := match b.weight with
                           | some w => w
                           | none => 100
                 ready := status.ready } }

/-- Descending-priority order between compiled rules. -/
def priorityGE (a b : CompiledRouteRule) : Prop :=
  b.priority ≤ a.priority

instance : DecidableRel priorityGE := fun a b => inferInstanceAs (Decidable (b.priority ≤ a.priority))

instance : IsTotal CompiledRouteRule priorityGE :=
  ⟨fun a b => (le_total b.priority a.priority).imp id id⟩

instance : IsTrans CompiledRouteRule priorityGE :=
  ⟨fun _ _ _ h1 h2 => le_trans h2 h1⟩

/-- The admissible outcomes of the `sort.Slice` call in `compileRouteConfig`.
Go's `sort.Slice` documents: the result is a permutation of the input,
ordered by the comparison, and "the sort is not guaranteed to be stable".
Any sorted permutation is therefore a permitted outcome. -/
def sortSliceOutcome (input output : List CompiledRouteRule) : Prop :=
  input.Perm output ∧ output.Pairwise priorityGE

/-- `RouteReconciler.compileRouteConfig` as a relation on outputs: the
deterministic rule build and defaults build, composed with the
nondeterministic `sort.Slice`. -/
def compileRouteConfigRel (route : Route) (backends : List BackendStatus)
    (out : RouteConfig) : Prop :=
  sortSliceOutcome (buildCompiledRules route backends) out.rules
    ∧ out.defaults = buildDefaults route backends

/-- The stable descending sort the spec asks for (claim C4): insertion sort
by non-strict descending priority keeps equal-priority rules in their
original order. -/
def stableSortByPriorityDesc (l : List CompiledRouteRule) : List CompiledRouteRule :=
  List.insertionSort priorityGE l

/-- The Ready condition data the Route reconciler writes on the success path
(`route_controller.go` lines 92-114): `ready` is the all-backends-ready flag
and the reason is `AllBackendsReady` or `BackendsNotReady`. -/
structure RouteStatusSlice where
  ready : Bool
  reason : String
  activeRules : Int
deriving DecidableEq

/-- Status fields written by a successful `RouteReconciler.Reconcile`. -/
def routeReconcileStatus (getAgent : String → String → Option AgentStatusSlice)
    (route : Route) : RouteStatusSlice :=
  let allReady := (resolveBackends getAgent route).2
  { ready := allReady
    reason := if allReady then "AllBackendsReady" else "BackendsNotReady"
    activeRules := route.spec.rules.length }

/-! ## Agent reconciler status update
(operator/internal/controllers/agent_controller.go, lines 107-139, and
operator/internal/render/service.go) -/

/-- The slice of an Agent object the status update reads: metadata,
the nullable `spec.replicas` (defaulting to 1) and the declared
`spec.tools`.  Tool entries are opaque to the status logic, so they are
carried as an abstract list of names. -/
structure AgentObj where
  name : String
  Namespace : String
  replicas : Option Int
  tools : List String
deriving DecidableEq

/-- `render.AgentEndpoint`: the fully qualified service endpoint. -/
def AgentEndpoint (a : AgentObj) : String :=
  a.name ++ "." ++ a.Namespace ++ ".svc.cluster.local:" ++ "8080"

/-- The deployment status slice `checkDeploymentReady` reads. -/
structure DeploymentStatusSlice where
  readyReplicas : Int
deriving DecidableEq

/-- `AgentReconciler.checkDeploymentReady`: a missing deployment is
`(false, 0)`; otherwise ready iff `readyReplicas ≥ desired ∧ readyReplicas > 0`
with desired defaulting to 1. -/
def checkDeploymentReady (a : AgentObj) (dep : Option DeploymentStatusSlice) :
    Bool × Int :=
  match dep with
  | none => (false, 0)
  | some d =>
    let replicas := match a.replicas with
                    | some r => r
                    | none => 1
    (decide (d.readyReplicas ≥ replicas) && decide (d.readyReplicas > 0), d.readyReplicas)

/-- Agent status fields written on the success path of
`AgentReconciler.Reconcile` (lines 107-139). -/
structure AgentStatusUpdate where
  endpoint : String
  ready : Bool
  availableReplicas : Int
  availableTools : List String
  readyReason : String
deriving DecidableEq

/-- The status update a successful agent reconciliation performs:
the endpoint is assigned unconditionally before the readiness check;
`availableTools` mirrors `spec.tools` when ready and non-empty, is cleared
when not ready, and is left untouched when ready with no declared tools
(`prevTools` is the value already in the status). -/
def agentReconcileStatus (a : AgentObj) (dep : Option DeploymentStatusSlice)
    (prevTools : List String) : AgentStatusUpdate :=
  let endpoint := AgentEndpoint a
  let rr := checkDeploymentReady a dep
  let ready := rr.1
  let tools := if ready && !a.tools.isEmpty then a.tools
               else if !ready then []
               else prevTools
  { endpoint := endpoint
    ready := ready
    availableReplicas := rr.2
    availableTools := tools
    readyReason := if ready then "DeploymentReady" else "DeploymentNotReady" }

/-! ## Task reconciler phase logic
(operator/internal/controllers/task_controller.go)

The phase dispatch of `TaskReconciler.Reconcile` after the deletion and
finalizer steps (deletion timestamp clear, finalizer present): initialize an
empty phase to Pending; then the `spec.paused` check; then the
Completed/Failed early return; then the per-phase handlers.  What
`handlePendingPhase` and `handleRunningPhase` decide depends on the cluster
(agents, ConfigMaps, the Job), so the phases they produce are abstracted as
parameters. -/

/-- Task phases (`TaskPhase`); `empty` is the unset `""` phase of a newly
created Task. -/
inductive TaskPhase where
  | empty
  | pending
  | running
  | completed
  | failed
  | paused
deriving DecidableEq

/-- Phase dispatch of `TaskReconciler.Reconcile` (lines 101-163):
the `spec.paused` branch precedes the Completed/Failed early return. -/
def taskReconcilePhaseStep (paused : Bool) (phase : TaskPhase)
    (pendingNext runningNext : TaskPhase) : TaskPhase :=
  if phase = TaskPhase.empty then TaskPhase.pending
  else if paused then TaskPhase.paused
  else if phase = TaskPhase.completed ∨ phase = TaskPhase.failed then phase
  else match phase with
       | TaskPhase.pending => pendingNext
       | TaskPhase.running => runningNext
       | TaskPhase.paused => TaskPhase.running
       | p => p

/-! ## Orchestrator result extraction
(task_controller.go: `getOrchestratorResult`, `handleJobSuccess`) -/

/-- The marker for the orchestrator result in logs. -/
def orchestratorResultMarker : String := "ORCHESTRATOR_RESULT:"

/-- The parsed orchestrator result (`OrchestratorResult`); Go zero values are
`false`, `0` and `""`.  The raw `prd` payload is kept as a string. -/
structure OrchestratorResult where
  passed : Bool
  completedTasks : Int
  totalTasks : Int
  iterations : Int
  learnings : String
  commitSha : String
  pullRequestUrl : String
  prd : String
  errorMsg : String
  noChanges : Bool
  pushed : Bool
deriving DecidableEq

/-- Character-level search for the first occurrence of `sep`: the text after
it, or `none` when absent. -/
def afterFirstOccurrence (sep : List Char) : List Char → Option (List Char)
  | [] => none
  | c :: rest =>
    if (c :: rest).take sep.length = sep then some ((c :: rest).drop sep.length)
    else afterFirstOccurrence sep rest

/-- The text after the first occurrence of the marker in a line
(`strings.Index` plus slicing), or `none` when the line has no marker. -/
def afterMarker (line : String) : Option String :=
  (afterFirstOccurrence orchestratorResultMarker.data line.data).map
    (fun cs => String.mk cs)

/-- The line scan of `getOrchestratorResult`: `resultLine` starts empty and
is overwritten by the post-marker text of every line containing the marker,
so the last marker line wins. -/
def scanResultLine (lines : List String) : String :=
  lines.foldl (fun acc line =>
    match afterMarker line with
    | some s => s
    | none => acc) ""

/-- `getOrchestratorResult` on the fetched log lines (the 1000-line tail is
requested from the pod-log API; `parse` stands for `json.Unmarshal` into
`OrchestratorResult` applied to the trimmed payload). -/
def getOrchestratorResult (lines : List String)
    (parse : String → Option OrchestratorResult) : Except String OrchestratorResult :=
  let resultLine := scanResultLine lines
  if resultLine = "" then Except.error "orchestrator result marker not found in logs"
  else
    match parse resultLine.trim with
    | some r => Except.ok r
    | none => Except.error "failed to parse orchestrator result"

/-- The substitute result `handleJobSuccess` uses when extraction fails on a
succeeded Job: passed with an extraction-failed note, all other fields zero. -/
def extractionFallback : OrchestratorResult :=
  { passed := true
    completedTasks := 0
    totalTasks := 0
    iterations := 0
    learnings := "Job completed but result extraction failed"
    commitSha := ""
    pullRequestUrl := ""
    prd := ""
    errorMsg := ""
    noChanges := false
    pushed := false }

/-- The result record and phase `handleJobSuccess` settles on: extraction
errors fall back to `extractionFallback`; the phase is Completed when the
result passed and Failed otherwise. -/
def handleJobSuccess (extraction : Except String OrchestratorResult) :
    OrchestratorResult × TaskPhase :=
  let result := match extraction with
                | Except.ok r => r
                | Except.error _ => extractionFallback
  (result, if result.passed then TaskPhase.completed else TaskPhase.failed)

/-! ## Admission circuit breaker (gateway/internal/circuit/breaker.go) -/

/-- The counters and configuration of a `Breaker`; the `sync.Mutex` guards
`active` and `waiting`, so `Acquire`'s locked section is one atomic step on
this record. -/
structure BreakerState where
  active : Int
  waiting : Int
  maxConcurrent : Int
  maxQueue : Int
deriving DecidableEq

/-- The immediate outcome of `Breaker.Acquire`'s locked section. -/
inductive AcquireStepResult where
  | ok
  | queueFull
  | enqueued
deriving DecidableEq

/-- The locked section of `Breaker.Acquire` (lines 73-94): admit when below
`maxConcurrent`; reject `QueueFull` when the queue is at capacity, leaving
both counters untouched; otherwise enqueue. -/
def acquireStep (b : BreakerState) : AcquireStepResult × BreakerState :=
  if b.active < b.maxConcurrent then
    (AcquireStepResult.ok, { b with active := b.active + 1 })
  else if b.waiting ≥ b.maxQueue then
    (AcquireStepResult.queueFull, b)
  else
    (AcquireStepResult.enqueued, { b with waiting := b.waiting + 1 })

/-- The three exits of the wait `select` in `Breaker.Acquire`. -/
inductive WaitBranch where
  | ctxDone
  | timeout
  | wake
deriving DecidableEq

/-- Go `select` semantics for the wait in `Acquire` (lines 100-121): when
one or more communications can proceed, one of them is chosen via uniform
pseudo-random selection (Go language specification, select statements).
This is the set of branches the select may take, given which of the three
channels is ready; the code gives no branch priority. -/
def selectReadyBranches (ctxDone timerFired wakeReady : Bool) : List WaitBranch :=
  (if ctxDone then [WaitBranch.ctxDone] else [])
    ++ (if timerFired then [WaitBranch.timeout] else [])
    ++ (if wakeReady then [WaitBranch.wake] else [])

/-- Final outcome of a completed `Acquire` wait. -/
inductive AcquireWaitResult where
  | ok
  | ctxErr
  | queueTimeout
deriving DecidableEq

/-- The locked bookkeeping of each wait exit: cancellation and timeout
decrement `waiting` and return the respective error; a wake decrements
`waiting`, increments `active` and returns success. -/
def acquireWaitExit (b : BreakerState) : WaitBranch → AcquireWaitResult × BreakerState
  | WaitBranch.ctxDone => (AcquireWaitResult.ctxErr, { b with waiting := b.waiting - 1 })
  | WaitBranch.timeout => (AcquireWaitResult.queueTimeout, { b with waiting := b.waiting - 1 })
  | WaitBranch.wake =>
      (AcquireWaitResult.ok, { b with waiting := b.waiting - 1, active := b.active + 1 })

/-! ## Dispatch forwarder response handling
(gateway/internal/api/handlers.go `forwardToAgent` lines 257-268 and
gateway/internal/mcp/handler.go `forwardToAgent` lines 553-583)

A downstream response is its status code and body.  `json.Unmarshal` is a
standard-library collaborator, so the parse outcome is a parameter: for the
HTTP API forwarder the decoded `interface{}` value, for the MCP forwarder
the decoded `map[string]interface{}` (which fails on any non-object JSON). -/

/-- Decoded JSON values (the dynamic shape of a Go `interface{}` produced by
`json.Unmarshal`). -/
inductive Json where
  | null
  | bool (b : Bool)
  | num (n : Int)
  | str (s : String)
  | arr (elems : List Json)
  | obj (fields : List (String × Json))

/-- Go map lookup on a decoded JSON object. -/
def lookupField (fields : List (String × Json)) (k : String) : Option Json :=
  match fields.find? (fun kv => kv.1 == k) with
  | some kv => kv.2
  | none => none

/-- Response handling of the HTTP API forwarder: status ≥ 400 is an upstream
error carrying the body; otherwise the decoded JSON value is returned whole,
and a body that fails to decode is returned as its raw text. -/
def apiForwardResponse (status : Int) (body : String) (parsed : Option Json) :
    Except String Json :=
  if status ≥ 400 then Except.error ("agent returned " ++ toString status ++ ": " ++ body)
  else
    match parsed with
    | some v => Except.ok v
    | none => Except.ok (Json.str body)

/-- Response handling of the MCP forwarder: status ≥ 400 is an upstream
error; on a decoded object, a string `result` field is returned, a
non-string `result` field is re-marshalled (indented) and returned, then a
string `response` or `output` field is returned; otherwise — and whenever
decoding into a map fails — the whole body is returned as text.
`marshalIndent` stands for `json.MarshalIndent`. -/
def mcpForwardResponse (marshalIndent : Json → String) (status : Int)
    (body : String) (parsedObj : Option (List (String × Json))) :
    Except String String :=
  if status ≥ 400 then Except.error ("agent returned " ++ toString status ++ ": " ++ body)
  else
    match parsedObj with
    | some fields =>
      match lookupField fields "result" with
      | some (Json.str s) => Except.ok s
      | some j => Except.ok (marshalIndent j)
      | none =>
        match lookupField fields "response" with
        | some (Json.str s) => Except.ok s
        | _ =>
          match lookupField fields "output" with
          | some (Json.str s) => Except.ok s
          | _ => Except.ok body
    | none => Except.ok body

/-! ## Theorems for the claims -/

/-- C1 counterexample: a successful reconciliation of an Agent whose
deployment has zero ready replicas leaves the agent not ready while its
status endpoint is the non-empty service address, so
"endpoint non-empty iff ready" fails. -/
theorem c1_endpoint_not_iff_ready_cex :
    (agentReconcileStatus ⟨"alpha", "agents", none, []⟩ (some ⟨0⟩) []).ready = false
    ∧ (agentReconcileStatus ⟨"alpha", "agents", none, []⟩ (some ⟨0⟩) []).endpoint
        = "alpha.agents.svc.cluster.local:8080"
    ∧ (agentReconcileStatus ⟨"alpha", "agents", none, []⟩ (some ⟨0⟩) []).endpoint ≠ "" := by
  decide

/-- C1 (amended): every successful Agent reconciliation sets the status
endpoint unconditionally to the rendered service address
`<name>.<namespace>.svc.cluster.local:8080` — independent of the deployment
state — while readiness holds iff the deployment exists with
`readyReplicas ≥ desiredReplicas` and `readyReplicas > 0`. -/
theorem c1_endpoint_always_set (a : AgentObj) (dep dep' : Option DeploymentStatusSlice)
    (prevTools prevTools' : List String) :
    (agentReconcileStatus a dep prevTools).endpoint = AgentEndpoint a
    ∧ (agentReconcileStatus a dep prevTools).endpoint
        = (agentReconcileStatus a dep' prevTools').endpoint
    ∧ ((agentReconcileStatus a dep prevTools).ready = true ↔
        ∃ d, dep = some d
          ∧ (match a.replicas with
             | some r => r
             | none => 1) ≤ d.readyReplicas
          ∧ 0 < d.readyReplicas) := by
  refine ⟨rfl, rfl, ?_⟩
  cases dep with
  | none => simp [agentReconcileStatus, checkDeploymentReady]
  | some d =>
    simp [agentReconcileStatus, checkDeploymentReady]

/-- C2 counterexample: a reconciliation that observes `spec.paused = true` on
a Task whose phase is Completed moves the phase to Paused, because the
paused check precedes the terminal-phase check. -/
theorem c2_completed_paused_cex :
    taskReconcilePhaseStep true TaskPhase.completed TaskPhase.running TaskPhase.completed
      = TaskPhase.paused
    ∧ TaskPhase.paused ≠ TaskPhase.completed := by
  decide

/-- C2 (amended): Completed (and Failed) are terminal for every
reconciliation that observes `spec.paused = false`; but a reconciliation
observing `spec.paused = true` moves a Completed (or Failed) Task to Paused,
since the paused branch runs before the terminal-phase early return.  In
every case a Completed Task can only stay Completed or become Paused. -/
theorem c2_completed_terminal_unless_paused (pendingNext runningNext : TaskPhase) :
    taskReconcilePhaseStep false TaskPhase.completed pendingNext runningNext
      = TaskPhase.completed
    ∧ taskReconcilePhaseStep false TaskPhase.failed pendingNext runningNext
      = TaskPhase.failed
    ∧ taskReconcilePhaseStep true TaskPhase.completed pendingNext runningNext
      = TaskPhase.paused
    ∧ taskReconcilePhaseStep true TaskPhase.failed pendingNext runningNext
      = TaskPhase.paused
    ∧ ∀ paused : Bool,
        taskReconcilePhaseStep paused TaskPhase.completed pendingNext runningNext
          = TaskPhase.completed
        ∨ taskReconcilePhaseStep paused TaskPhase.completed pendingNext runningNext
          = TaskPhase.paused := by
  refine ⟨rfl, rfl, rfl, rfl, ?_⟩
  intro paused
  cases paused
  · exact Or.inl rfl
  · exact Or.inr rfl

/-- C7: `Breaker.Acquire` admits and increments `active` when below
`maxConcurrent`; when at concurrency capacity with the queue full it returns
`QueueFull` with the state — both counters — unchanged. -/
theorem c7_acquire_admit_and_queue_full (b1 b2 : BreakerState)
    (h1 : b1.active < b1.maxConcurrent)
    (h2 : b2.maxConcurrent ≤ b2.active)
    (h3 : b2.maxQueue ≤ b2.waiting) :
    acquireStep b1 = (AcquireStepResult.ok, { b1 with active := b1.active + 1 })
    ∧ acquireStep b2 = (AcquireStepResult.queueFull, b2) := by
  constructor
  · simp [acquireStep, h1]
  · have h2' : ¬ b2.active < b2.maxConcurrent := not_lt.mpr h2
    simp [acquireStep, h2', h3]

/-- C7 witness: concrete admit and concrete queue-full rejection. -/
theorem c7_acquire_witness :
    acquireStep ⟨0, 0, 2, 1⟩ = (AcquireStepResult.ok, ⟨1, 0, 2, 1⟩)
    ∧ acquireStep ⟨2, 1, 2, 1⟩ = (AcquireStepResult.queueFull, ⟨2, 1, 2, 1⟩) :=
  ⟨(c7_acquire_admit_and_queue_full ⟨0, 0, 2, 1⟩ ⟨2, 1, 2, 1⟩ (by decide) (by decide)
      (by decide)).1,
   (c7_acquire_admit_and_queue_full ⟨0, 0, 2, 1⟩ ⟨2, 1, 2, 1⟩ (by decide) (by decide)
      (by decide)).2⟩

/-- C8: when context cancellation, the wait timeout and a wake token are
simultaneously ready, the `select` in `Breaker.Acquire` may take the wake
branch — Go's `select` chooses uniformly at random among ready cases, with
no cancellation-first check — and that branch admits the cancelled waiter
with success.  The claimed precedence (cancellation before wake) is what the
specification mandates and the code does not implement. -/
theorem c8_cancelled_waiter_may_wake :
    WaitBranch.wake ∈ selectReadyBranches true true true
    ∧ acquireWaitExit ⟨0, 1, 1, 1⟩ WaitBranch.wake = (AcquireWaitResult.ok, ⟨1, 0, 1, 1⟩) := by
  decide

/-- C10: when loading route configuration fails — malformed JSON or any rule
whose `intentRegex` does not compile — the previously loaded table is left
completely unchanged, so subsequent matches and the defaults behave exactly
as before the failed load. -/
theorem c10_load_error_preserves_table (t : Table) (parsed : Option RouteConfig)
    (compileRe : String → Option (String → Bool)) (e : String)
    (h : (t.loadFromJSON parsed compileRe).2 = some e) :
    (t.loadFromJSON parsed compileRe).1 = t
    ∧ (∀ req, ((t.loadFromJSON parsed compileRe).1).matchReq req = t.matchReq req)
    ∧ ((t.loadFromJSON parsed compileRe).1).getDefaults = t.getDefaults := by
  have ht : (t.loadFromJSON parsed compileRe).1 = t := by
    cases parsed with
    | none => rfl
    | some config =>
      unfold Table.loadFromJSON at h ⊢
      cases hcr : compileRules compileRe config.rules with
      | error e' => simp [hcr]
      | ok compiled => simp [hcr] at h
  exact ⟨ht, fun req => by rw [ht], by rw [ht]⟩

/-- C10 witness: a failed load of malformed JSON into the empty table leaves
it untouched. -/
theorem c10_load_error_witness :
    (Table.loadFromJSON ⟨none, []⟩ none (fun _ => none)).1 = (⟨none, []⟩ : Table)
    ∧ (Table.loadFromJSON ⟨none, []⟩ none (fun _ => none)).2 = some "json unmarshal error" :=
  ⟨(c10_load_error_preserves_table ⟨none, []⟩ none (fun _ => none)
      "json unmarshal error" rfl).1, rfl⟩

/-- Appending lines that carry no marker does not change the retained
result line. -/
theorem scanFold_no_marker (extra : List String) (acc : String)
    (h : ∀ x ∈ extra, afterMarker x = none) :
    extra.foldl (fun acc line =>
      match afterMarker line with
      | some s => s
      | none => acc) acc = acc := by
  induction extra generalizing acc with
  | nil => rfl
  | cons x rest ih =>
    have hx : afterMarker x = none := h x (List.mem_cons_self x rest)
    have hrest : ∀ y ∈ rest, afterMarker y = none := fun y hy => h y (List.mem_cons_of_mem x hy)
    simp only [List.foldl_cons, hx]
    exact ih acc hrest

/-- C9: the log scan keeps the text after the LAST line containing the
`ORCHESTRATOR_RESULT:` marker — appending marker-free lines after an earlier
marker changes nothing, and appending a marker line overrides whatever came
before; a log with no retained payload is an extraction error; and a
succeeded Job whose extraction errored is settled as Completed with
`passed = true` and the extraction-failed note. -/
theorem c9_result_extraction (lines extra : List String) (l suffix : String)
    (parse : String → Option OrchestratorResult) (e : String) :
    ((∀ x ∈ extra, afterMarker x = none) →
      scanResultLine (lines ++ extra) = scanResultLine lines)
    ∧ (afterMarker l = some suffix → scanResultLine (lines ++ [l]) = suffix)
    ∧ (scanResultLine lines = "" →
        getOrchestratorResult lines parse
          = Except.error "orchestrator result marker not found in logs")
    ∧ handleJobSuccess (Except.error e) = (extractionFallback, TaskPhase.completed)
    ∧ extractionFallback.passed = true
    ∧ extractionFallback.learnings = "Job completed but result extraction failed" := by
  refine ⟨?_, ?_, ?_, rfl, rfl, rfl⟩
  · intro h
    unfold scanResultLine
    rw [List.foldl_append]
    exact scanFold_no_marker extra _ h
  · intro h
    unfold scanResultLine
    rw [List.foldl_append]
    simp [h]
  · intro h
    unfold getOrchestratorResult
    simp [h]

/-- C9 witness: concrete logs exercising the last-marker scan, the
missing-marker error and the passed-with-note fallback. -/
theorem c9_result_extraction_witness :
    scanResultLine ([] ++ ["no marker here"]) = scanResultLine []
    ∧ scanResultLine ([] ++ ["ORCHESTRATOR_RESULT:payload"]) = "payload"
    ∧ getOrchestratorResult [] (fun _ => none)
        = Except.error "orchestrator result marker not found in logs"
    ∧ handleJobSuccess (Except.error "boom") = (extractionFallback, TaskPhase.completed)
    ∧ extractionFallback.passed = true
    ∧ extractionFallback.learnings = "Job completed but result extraction failed" := by
  have T := c9_result_extraction [] ["no marker here"] "ORCHESTRATOR_RESULT:payload" "payload"
    (fun _ => none) "boom"
  exact ⟨T.1 (by decide), T.2.1 (by decide), T.2.2.1 rfl, T.2.2.2.1, T.2.2.2.2.1, T.2.2.2.2.2⟩

/-- A Route whose single rule carries the syntactically invalid intent regex
`"("`, referencing one backend agent. -/
def invalidRegexRoute : Route :=
  { name := "r"
    Namespace := "default"
    spec :=
      { rules := [{ name := "rule1"
                    priority := none
                    Match := { agent := "", intentRegex := "(", tenantId := "", headers := [] }
                    backends := [{ agentRef := ⟨"a1", ""⟩, weight := none }] }]
        defaults := none } }

/-- An Agent store holding the single ready backend of `invalidRegexRoute`. -/
def invalidRegexStore : String → String → Option AgentStatusSlice :=
  fun n ns =>
    if n == "a1" && ns == "default" then some ⟨true, "a1.default.svc.cluster.local:8080"⟩
    else none

/-- C3 counterexample: reconciling a Route whose rule has the invalid intent
regex `"("` leaves the Route READY with reason `AllBackendsReady` — not
unready with reason `InvalidRegex` — because `compileRouteConfig` never
compiles regexes: the pattern is copied into the emitted table verbatim. -/
theorem c3_invalid_regex_not_detected_cex :
    (routeReconcileStatus invalidRegexStore invalidRegexRoute).reason = "AllBackendsReady"
    ∧ (routeReconcileStatus invalidRegexStore invalidRegexRoute).reason ≠ "InvalidRegex"
    ∧ (routeReconcileStatus invalidRegexStore invalidRegexRoute).ready = true
    ∧ (buildCompiledRules invalidRegexRoute
        (resolveBackends invalidRegexStore invalidRegexRoute).1).map
          (fun r => r.Match.intentRegex) = ["("] := by
  decide

/-- On a rule list containing a non-empty regex the compiler rejects,
`compileRules` returns an error. -/
theorem compileRules_error_of_bad_rule (compileRe : String → Option (String → Bool))
    (rules : List CompiledRouteRule) (r : CompiledRouteRule)
    (hm : r ∈ rules) (hne : r.Match.intentRegex ≠ "")
    (hbad : compileRe r.Match.intentRegex = none) :
    ∃ e, compileRules compileRe rules = Except.error e := by
  induction rules with
  | nil => cases hm
  | cons hd tl ih =>
    rcases List.mem_cons.mp hm with heq | htl
    · subst heq
      refine ⟨r.Match.intentRegex, ?_⟩
      unfold compileRules
      simp [bne, hne, hbad]
    · obtain ⟨e, he⟩ := ih htl
      unfold compileRules
      by_cases h1 : (hd.Match.intentRegex != "") = true
      · cases hcc : compileRe hd.Match.intentRegex with
        | none => exact ⟨hd.Match.intentRegex, by simp [h1, hcc]⟩
        | some re => exact ⟨e, by simp [h1, hcc, he]⟩
      · exact ⟨e, by simp [h1, he]⟩

/-- C3 (amended): no component marks a Route unready with reason
`InvalidRegex`.  The operator's route compiler does not compile
`match.intentRegex` at all: the pattern strings are carried into the compiled
table verbatim and the Ready reason is decided solely by backend readiness
(`AllBackendsReady` / `BackendsNotReady`).  The gateway's table loader is the
component that compiles regexes, and a syntactically invalid one makes the
whole load return an error — the failure is propagated, the remaining rules
are not loaded, and the previous table stays in place. -/
theorem c3_invalid_regex_handling
    (getAgent : String → String → Option AgentStatusSlice) (route : Route)
    (backends : List BackendStatus) (t : Table) (config : RouteConfig)
    (compileRe : String → Option (String → Bool)) (r : CompiledRouteRule)
    (hm : r ∈ config.rules) (hne : r.Match.intentRegex ≠ "")
    (hbad : compileRe r.Match.intentRegex = none) :
    (routeReconcileStatus getAgent route).reason ≠ "InvalidRegex"
    ∧ (buildCompiledRules route backends).map (fun cr => cr.Match.intentRegex)
        = route.spec.rules.map (fun rs => rs.Match.intentRegex)
    ∧ (t.loadFromJSON (some config) compileRe).2.isSome = true
    ∧ (t.loadFromJSON (some config) compileRe).1 = t := by
  refine ⟨?_, ?_, ?_, ?_⟩
  · unfold routeReconcileStatus
    by_cases h : (resolveBackends getAgent route).2 = true
    · simp [h]
    · simp [h]
  · simp [buildCompiledRules, buildCompiledRule, List.map_map, Function.comp]
  · obtain ⟨e, he⟩ := compileRules_error_of_bad_rule compileRe config.rules r hm hne hbad
    unfold Table.loadFromJSON
    simp [he]
  · obtain ⟨e, he⟩ := compileRules_error_of_bad_rule compileRe config.rules r hm hne hbad
    unfold Table.loadFromJSON
    simp [he]

/-- C3 witness: concrete route, store, table and failing pattern. -/
theorem c3_invalid_regex_witness :
    (routeReconcileStatus invalidRegexStore invalidRegexRoute).reason ≠ "InvalidRegex"
    ∧ (buildCompiledRules invalidRegexRoute []).map (fun cr => cr.Match.intentRegex)
        = invalidRegexRoute.spec.rules.map (fun rs => rs.Match.intentRegex)
    ∧ ((⟨none, []⟩ : Table).loadFromJSON
        (some { rules := [{ name := "rule1", priority := 0,
                            Match := { agent := "", intentRegex := "(", tenantId := "",
                                       headers := [] },
                            backends := [] }], defaults := none })
        (fun _ => none)).2.isSome = true
    ∧ ((⟨none, []⟩ : Table).loadFromJSON
        (some { rules := [{ name := "rule1", priority := 0,
                            Match := { agent := "", intentRegex := "(", tenantId := "",
                                       headers := [] },
                            backends := [] }], defaults := none })
        (fun _ => none)).1 = (⟨none, []⟩ : Table) :=
  c3_invalid_regex_handling invalidRegexStore invalidRegexRoute [] ⟨none, []⟩
    { rules := [{ name := "rule1", priority := 0,
                  Match := { agent := "", intentRegex := "(", tenantId := "", headers := [] },
                  backends := [] }], defaults := none }
    (fun _ => none)
    { name := "rule1", priority := 0,
      Match := { agent := "", intentRegex := "(", tenantId := "", headers := [] },
      backends := [] }
    (by decide) (by decide) rfl

/-- A Route with two distinct rules of equal priority and no backends. -/
def equalPriorityRoute : Route :=
  { name := "tie"
    Namespace := "ns"
    spec :=
      { rules := [{ name := "a", priority := some 5,
                    Match := { agent := "", intentRegex := "", tenantId := "", headers := [] },
                    backends := [] },
                  { name := "b", priority := some 5,
                    Match := { agent := "", intentRegex := "", tenantId := "", headers := [] },
                    backends := [] }]
        defaults := none } }

/-- C4 counterexample: `compileRouteConfig` sorts with Go's `sort.Slice`,
which is documented as NOT stable, so the outcome that reverses two
equal-priority rules is a permitted emission — it is a permutation of the
built rules and sorted by descending priority — yet it differs from the
stable order the claim requires. -/
theorem c4_unstable_tie_cex :
    compileRouteConfigRel equalPriorityRoute []
      { rules := (buildCompiledRules equalPriorityRoute []).reverse,
        defaults := buildDefaults equalPriorityRoute [] }
    ∧ (buildCompiledRules equalPriorityRoute []).reverse
        ≠ stableSortByPriorityDesc (buildCompiledRules equalPriorityRoute []) := by
  constructor
  · exact ⟨⟨(List.reverse_perm _).symm, by decide⟩, rfl⟩
  · decide

/-- C4 (amended): every permitted outcome of the `compileRouteConfig`
emission lists the rules sorted by priority in descending order and is some
permutation of the stable descending sort of the built rules; the stable
order itself is one permitted outcome, but equal-priority rules are not
guaranteed to keep their original spec order (`sort.Slice` is unstable). -/
theorem c4_rules_sorted_desc (route : Route) (backends : List BackendStatus)
    (out : RouteConfig) (h : compileRouteConfigRel route backends out) :
    out.rules.Pairwise priorityGE
    ∧ out.rules.Perm (stableSortByPriorityDesc (buildCompiledRules route backends))
    ∧ compileRouteConfigRel route backends
        { rules := stableSortByPriorityDesc (buildCompiledRules route backends),
          defaults := buildDefaults route backends } := by
  obtain ⟨⟨hperm, hsorted⟩, _⟩ := h
  refine ⟨hsorted, ?_, ⟨(List.perm_insertionSort priorityGE _).symm, ?_⟩, rfl⟩
  · exact hperm.symm.trans (List.perm_insertionSort priorityGE _).symm
  · exact List.sorted_insertionSort priorityGE _

/-- C4 witness: the stable sort of the two-rule route is itself a permitted
outcome, and the theorem applies to it. -/
theorem c4_rules_sorted_desc_witness :
    (stableSortByPriorityDesc (buildCompiledRules equalPriorityRoute [])).Pairwise priorityGE
    ∧ (stableSortByPriorityDesc (buildCompiledRules equalPriorityRoute [])).Perm
        (stableSortByPriorityDesc (buildCompiledRules equalPriorityRoute [])) :=
  have T := c4_rules_sorted_desc equalPriorityRoute []
    { rules := stableSortByPriorityDesc (buildCompiledRules equalPriorityRoute []),
      defaults := buildDefaults equalPriorityRoute [] }
    ⟨⟨by decide, by decide⟩, rfl⟩
  ⟨T.1, T.2.1⟩

/-- C6 counterexample: on a 200 response with body `{"result":"hi"}`, the
HTTP API forwarder returns the whole decoded object — it does not unwrap the
reply to the string `"hi"` as the claim requires. -/
theorem c6_api_no_unwrap_cex :
    apiForwardResponse 200 "\x7b\"result\":\"hi\"\x7d"
        (some (Json.obj [("result", Json.str "hi")]))
      = Except.ok (Json.obj [("result", Json.str "hi")])
    ∧ (Except.ok (Json.obj [("result", Json.str "hi")]) : Except String Json)
        ≠ Except.ok (Json.str "hi") := by
  constructor
  · rfl
  · intro h
    injection h with h'
    exact Json.noConfusion h'

/-- C6 (amended): the two forwarders handle sub-400 responses differently.
The HTTP API forwarder never unwraps: it passes the whole decoded JSON value
through, surfacing an undecodable body as raw text.  The MCP forwarder
unwraps a string `result`, `response` or `output` field of a decoded object
to that string, re-marshals a non-string `result` field (returning its
indented JSON rather than the entire body), and otherwise — including when
the body does not decode to an object — passes the entire body through as
text.  Responses with status ≥ 400 become upstream errors carrying the
body. -/
theorem c6_forwarder_response_handling (marshalIndent : Json → String)
    (status : Int) (body : String) (fields : List (String × Json))
    (v : Json) (s : String) (hlt : status < 400) :
    apiForwardResponse status body (some v) = Except.ok v
    ∧ apiForwardResponse status body none = Except.ok (Json.str body)
    ∧ (lookupField fields "result" = some (Json.str s) →
        mcpForwardResponse marshalIndent status body (some fields) = Except.ok s)
    ∧ (∀ j, lookupField fields "result" = some j → (∀ s', j ≠ Json.str s') →
        mcpForwardResponse marshalIndent status body (some fields)
          = Except.ok (marshalIndent j))
    ∧ (lookupField fields "result" = none →
        lookupField fields "response" = some (Json.str s) →
        mcpForwardResponse marshalIndent status body (some fields) = Except.ok s)
    ∧ (lookupField fields "result" = none →
        (∀ s', lookupField fields "response" ≠ some (Json.str s')) →
        lookupField fields "output" = some (Json.str s) →
        mcpForwardResponse marshalIndent status body (some fields) = Except.ok s)
    ∧ (lookupField fields "result" = none → lookupField fields "response" = none →
        lookupField fields "output" = none →
        mcpForwardResponse marshalIndent status body (some fields) = Except.ok body)
    ∧ mcpForwardResponse marshalIndent status body none = Except.ok body
    ∧ (∀ status' : Int, 400 ≤ status' →
        apiForwardResponse status' body (some v)
          = Except.error ("agent returned " ++ toString status' ++ ": " ++ body))
    ∧ (∀ status' : Int, 400 ≤ status' → ∀ parsedObj,
        mcpForwardResponse marshalIndent status' body parsedObj
          = Except.error ("agent returned " ++ toString status' ++ ": " ++ body)) := by
  have hnot : ¬ status ≥ 400 := not_le.mpr hlt
  refine ⟨?_, ?_, ?_, ?_, ?_, ?_, ?_, ?_, ?_, ?_⟩
  · simp [apiForwardResponse, hnot]
  · simp [apiForwardResponse, hnot]
  · intro h
    simp [mcpForwardResponse, hnot, h]
  · intro j h hns
    cases j with
    | str s' => exact absurd rfl (hns s')
    | null => simp [mcpForwardResponse, hnot, h]
    | bool b => simp [mcpForwardResponse, hnot, h]
    | num n => simp [mcpForwardResponse, hnot, h]
    | arr elems => simp [mcpForwardResponse, hnot, h]
    | obj fs => simp [mcpForwardResponse, hnot, h]
  · intro h1 h2
    simp [mcpForwardResponse, hnot, h1, h2]
  · intro h1 h2 h3
    cases hr : lookupField fields "response" with
    | none => simp [mcpForwardResponse, hnot, h1, hr, h3]
    | some j =>
      cases j with
      | str s' => exact absurd hr (h2 s')
      | null => simp [mcpForwardResponse, hnot, h1, hr, h3]
      | bool b => simp [mcpForwardResponse, hnot, h1, hr, h3]
      | num n => simp [mcpForwardResponse, hnot, h1, hr, h3]
      | arr elems => simp [mcpForwardResponse, hnot, h1, hr, h3]
      | obj fs => simp [mcpForwardResponse, hnot, h1, hr, h3]
  · intro h1 h2 h3
    simp [mcpForwardResponse, hnot, h1, h2, h3]
  · simp [mcpForwardResponse, hnot]
  · intro status' h
    simp [apiForwardResponse, h]
  · intro status' h parsedObj
    simp [mcpForwardResponse, h]

/-- C6 witness: concrete instantiations at status 200 with a string `result`,
a string `response` and a string `output` field present, plus the raw and
error paths of both forwarders at status 404. -/
theorem c6_forwarder_response_witness :
    apiForwardResponse 200 "B" (some Json.null) = Except.ok Json.null
    ∧ apiForwardResponse 200 "B" none = Except.ok (Json.str "B")
    ∧ mcpForwardResponse (fun _ => "M") 200 "B" (some [("result", Json.str "hi")])
        = Except.ok "hi"
    ∧ mcpForwardResponse (fun _ => "M") 200 "B" (some [("response", Json.str "r")])
        = Except.ok "r"
    ∧ mcpForwardResponse (fun _ => "M") 200 "B" (some [("output", Json.str "o")])
        = Except.ok "o"
    ∧ mcpForwardResponse (fun _ => "M") 200 "B" none = Except.ok "B"
    ∧ apiForwardResponse 404 "B" (some Json.null)
        = Except.error "agent returned 404: B"
    ∧ mcpForwardResponse (fun _ => "M") 404 "B" none
        = Except.error "agent returned 404: B" := by
  have T1 := c6_forwarder_response_handling (fun _ => "M") 200 "B"
    [("result", Json.str "hi")] Json.null "hi" (by decide)
  have T2 := c6_forwarder_response_handling (fun _ => "M") 200 "B"
    [("response", Json.str "r")] Json.null "r" (by decide)
  have T3 := c6_forwarder_response_handling (fun _ => "M") 200 "B"
    [("output", Json.str "o")] Json.null "o" (by decide)
  refine ⟨T1.1, T1.2.1, T1.2.2.1 rfl, T2.2.2.2.2.1 rfl rfl, ?_, T1.2.2.2.2.2.2.2.1,
    T1.2.2.2.2.2.2.2.2.1 404 (by decide), T1.2.2.2.2.2.2.2.2.2 404 (by decide) none⟩
  refine T3.2.2.2.2.2.1 rfl ?_ rfl
  intro s' h
  rw [show lookupField [("output", Json.str "o")] "response" = none from rfl] at h
  cases h

/-- The early-return criteria checks of `Table.ruleMatches` agree with the
spec reading "all non-empty criteria hold". -/
theorem ruleMatches_eq_specRuleMatches (cr : compiledRule) (req : MatchRequest) :
    ruleMatches cr req = specRuleMatches cr req := by
  rcases cr with ⟨rule, ire⟩
  rcases ire with _ | re
  · simp only [ruleMatches, specRuleMatches, bne]
    cases h1 : rule.Match.agent == "" <;>
    cases h2 : rule.Match.agent == req.Agent <;>
    cases h3 : rule.Match.tenantId == "" <;>
    cases h4 : rule.Match.tenantId == req.TenantID <;>
    simp [h1, h2, h3, h4]
  · simp only [ruleMatches, specRuleMatches, bne]
    cases h1 : rule.Match.agent == "" <;>
    cases h2 : rule.Match.agent == req.Agent <;>
    cases h3 : rule.Match.tenantId == "" <;>
    cases h4 : rule.Match.tenantId == req.TenantID <;>
    cases h5 : re req.Intent <;>
    simp [h1, h2, h3, h4, h5]

/-- C5: the routing portion of `handleInvoke` follows exactly the four-step
match procedure: explicit-agent rule with a ready backend first, then the
first stored rule whose non-empty criteria all hold and which has a ready
backend, then the ready default backend under the synthetic rule name
`_default`, and otherwise rejection — bad-request when
`defaults.rejectUnmatched` is set, not-found otherwise.  The hypothesis is
the table well-formedness every constructed table satisfies. -/
theorem c5_match_procedure (t : Table) (req : MatchRequest) (hwf : t.wf) :
    handleInvokeRouting t req = matchProcedureSpec t req := by
  cases hc : t.config with
  | none =>
    have hcomp : t.compiled = [] := hwf hc
    simp [handleInvokeRouting, Table.matchReq, matchProcedureSpec, noMatchOutcome,
      Table.getDefaults, hc, hcomp]
  | some config =>
    have hrm : (fun cr => ruleMatches cr req
          && !(filterReadyBackends cr.rule.backends).isEmpty)
        = (fun cr => specRuleMatches cr req
          && !(filterReadyBackends cr.rule.backends).isEmpty) :=
      funext fun cr => by rw [ruleMatches_eq_specRuleMatches]
    simp only [handleInvokeRouting, Table.matchReq, matchProcedureSpec, hc, hrm]
    cases hf1 : (if req.Agent != "" then
        t.compiled.find? (fun cr => cr.rule.Match.agent == req.Agent
          && !(filterReadyBackends cr.rule.backends).isEmpty)
      else none) with
    | some cr =>
      have hp : (fun cr : compiledRule => cr.rule.Match.agent == req.Agent
          && !(filterReadyBackends cr.rule.backends).isEmpty) cr = true := by
        by_cases hA : (req.Agent != "") = true
        · rw [if_pos hA] at hf1
          exact @List.find?_some compiledRule
            (fun cr : compiledRule => cr.rule.Match.agent == req.Agent
              && !(filterReadyBackends cr.rule.backends).isEmpty) cr t.compiled hf1
        · rw [if_neg hA] at hf1
          cases hf1
      have hne : (filterReadyBackends cr.rule.backends).isEmpty = false := by
        simp only [Bool.and_eq_true, Bool.not_eq_true'] at hp
        exact hp.2
      simp [hne]
    | none =>
      cases hf2 : t.compiled.find? (fun cr => specRuleMatches cr req
          && !(filterReadyBackends cr.rule.backends).isEmpty) with
      | some cr =>
        have hp := @List.find?_some compiledRule
          (fun cr : compiledRule => specRuleMatches cr req
            && !(filterReadyBackends cr.rule.backends).isEmpty) cr t.compiled hf2
        have hne : (filterReadyBackends cr.rule.backends).isEmpty = false := by
          simp only [Bool.and_eq_true, Bool.not_eq_true'] at hp
          exact hp.2
        simp [hne]
      | none =>
        cases hd : config.defaults with
        | none => simp [noMatchOutcome, Table.getDefaults, hc, hd]
        | some d =>
          cases hb : d.backend with
          | none => simp [noMatchOutcome, Table.getDefaults, hc, hd, hb]
          | some b =>
            cases hr : b.ready with
            | true => simp [Table.getDefaults, hc, hd, hb, hr]
            | false => simp [hr, noMatchOutcome, Table.getDefaults, hc, hd, hb]

/-- A concrete rule for exercising the match procedure. -/
def c5ExampleRule : CompiledRouteRule :=
  { name := "r1"
    priority := 10
    Match := { agent := "alpha", intentRegex := "", tenantId := "", headers := [] }
    backends := [{ agentName := "alpha"
                   Namespace := "ns"
                   endpoint := "alpha.ns.svc.cluster.local:8080"
                   weight := 100
                   ready := true }] }

/-- A concrete loaded table for exercising the match procedure. -/
def c5ExampleTable : Table :=
  { config := some
      { rules := [c5ExampleRule]
        defaults := some
          { backend := none
            maxConcurrent := 100
            maxQueueSize := 50
            queueTimeoutMs := 30000
            requestTimeoutMs := 300000
            rejectUnmatched := true } }
    compiled := [⟨c5ExampleRule, none⟩] }

/-- C5 witness: the concrete loaded table, matched for a concrete request
that names the agent. -/
theorem c5_match_procedure_witness :
    handleInvokeRouting c5ExampleTable ⟨"alpha", "", "", []⟩
      = matchProcedureSpec c5ExampleTable ⟨"alpha", "", "", []⟩ :=
  c5_match_procedure c5ExampleTable ⟨"alpha", "", "", []⟩ (fun h => Option.noConfusion h)

end MCPFabric
